import Mathlib

/-!
Verification of the pdf-to-podcast repository's prompt-template catalog
(`services/AgentService/podcast_prompts.py`,
`services/AgentService/monologue_prompts.py`) and of its LLM query manager,
whose implementation (`shared/llmmanager.py`) is exercised by
`services/AgentService/test_llmmanager.py` but is modelled here from the
specification.

The prompt modules are embedded directly from the Python source: the template
strings, the `PROMPT_TEMPLATES` dictionaries (as association lists, whose keys
are distinct string constants), the compiled `TEMPLATES` dictionaries, and the
two lookup paths of each catalog class (`get_template`, which indexes
`TEMPLATES` and raises `KeyError` on a missing name, and Python attribute
access, which resolves class attributes first and falls back to `__getattr__`,
which raises `AttributeError` on a missing name).
-/

deriving instance DecidableEq for Except

/-- A compiled Jinja2 template, modelling `jinja2.Template`: compilation is
abstracted as retaining the source string (the prompt modules never render,
so only identity of compiled objects matters). -/
structure Jinja2Template where
  source : String
deriving DecidableEq, Repr

/-- Models the `jinja2.Template(template)` constructor applied to a template
string, as used in the `TEMPLATES` dict comprehensions of both modules. -/
def jinja2Template (s : String) : Jinja2Template := ⟨s⟩

/-- Python exceptions raised by the two lookup paths, plus the typed
"unknown template" error that `spec.md` §9 proposes; the code under
`src/` never raises the latter. -/
inductive PyExc where
  | keyError (key : String)
  | attributeError (msg : String)
  | unknownTemplateError (name : String)
deriving DecidableEq, Repr

/-- The value produced by a successful Python attribute access on a prompt
class: either a template string from `PROMPT_TEMPLATES` (via `__getattr__`)
or a method defined on the class (found by normal attribute resolution). -/
inductive AttrValue where
  | str (s : String)
  | method (name : String)
deriving DecidableEq, Repr

/-- Attributes defined in the class body of `PodcastPrompts` and
`FinancialSummaryPrompts`: both classes define exactly `__getattr__` and the
classmethod `get_template` (attributes inherited from `object` are omitted;
including them would only add further names resolved before `__getattr__`). -/
def promptClassAttrs : List String := ["get_template", "__getattr__"]

/-- Python attribute access on a prompt-class instance: normal attribute
resolution finds attributes defined on the class; only when that fails is
`__getattr__` invoked, which returns `PROMPT_TEMPLATES[name]` when present and
otherwise raises
`AttributeError(f"'{cls}' has no attribute '{name}'")`. -/
def pythonGetattr (promptTemplates : List (String × String))
    (className name : String) : Except PyExc AttrValue :=
  if name ∈ promptClassAttrs then
    .ok (.method name)
  else
    match promptTemplates.lookup name with
    | some s => .ok (.str s)
    | none => .error (.attributeError
        ("\x27" ++ className ++ "\x27 has no attribute \x27" ++ name ++ "\x27"))

-- ===== podcast_prompts =====
def podcast_prompts.PODCAST_SUMMARY_PROMPT_STR : String :=
  "\nPor favor, proporciona un resumen comprehensivo del siguiente documento. Nota que este documento puede contener artefactos de conversión OCR/PDF, así que por favor interpreta el contenido, especialmente datos numéricos y tablas, con el contexto apropiado.\n\n<document>\n\x7b\x7btext\x7d\x7d\n</document>\n\nRequisitos para el resumen:\n1. Preserva metadatos clave del documento:\n   - Título/tipo del documento\n   - Nombre de la empresa/organización\n   - Proveedor/autor del reporte\n   - Fecha/período de tiempo cubierto\n   - Cualquier identificador relevante del documento\n\n2. Incluye toda la información crítica:\n   - Hallazgos principales y conclusiones\n   - Estadísticas y métricas clave\n   - Recomendaciones importantes\n   - Tendencias o cambios significativos\n   - Riesgos o preocupaciones notables\n   - Datos financieros materiales\n\n3. Mantén precisión factual:\n   - Mantén todos los valores numéricos precisos\n   - Preserva fechas específicas y marcos temporales\n   - Retén nombres y títulos exactos\n   - Cita declaraciones críticas textualmente cuando sea necesario\n\nPor favor, formatea el resumen usando markdown, con encabezados apropiados, listas y énfasis para mejor legibilidad.\n\nNota: Enfócate en extraer y organizar la información más esencial mientras aseguras que no se omitan detalles críticos. Mantén el tono y contexto originales del documento en tu resumen.\n"

def podcast_prompts.PODCAST_MULTI_PDF_OUTLINE_PROMPT_STR : String :=
  "\nCrea un esquema de podcast estructurado sintetizando los siguientes resúmenes de documentos. El podcast debe durar \x7b\x7btotal_duration\x7d\x7d minutos.\n\nÁreas de Enfoque y Temas Clave:\n\x7b% if focus_instructions %\x7d\n\x7b\x7bfocus_instructions\x7d\x7d\n\x7b% else %\x7d\nUsa tu juicio para identificar y priorizar los temas, hallazgos y perspectivas más importantes en todos los documentos.\n\x7b% endif %\x7d\n\nDocumentos Fuente Disponibles:\n\x7b\x7bdocuments\x7d\x7d\n\nRequisitos:\n1. Estrategia de Contenido\n  - Enfócate en el contenido de los Documentos Objetivo, y usa los Documentos de Contexto como apoyo y contexto\n  - Identifica debates clave y puntos de vista divergentes\n  - Analiza preguntas/preocupaciones potenciales de la audiencia\n  - Establece conexiones entre documentos y áreas de enfoque\n\n2. Estructura\n  - Crea jerarquía clara de temas\n  - Asigna asignaciones de tiempo por sección (basado en prioridades)\n  - Referencia documentos fuente usando rutas de archivo\n  - Construye flujo narrativo natural entre temas\n\n3. Cobertura\n  - Tratamiento comprehensivo de Documentos Objetivo\n  - Integración estratégica de Documentos de Contexto para apoyo\n  - Evidencia de apoyo de todos los documentos relevantes\n  - Equilibra precisión técnica con entrega atractiva\n\nAsegura que el esquema cree una narrativa cohesiva que enfatice los Documentos Objetivo mientras usa los Documentos de Contexto para proporcionar profundidad y información de fondo adicional.\n"

def podcast_prompts.PODCAST_MULTI_PDF_STRUCUTRED_OUTLINE_PROMPT_STR : String :=
  "\nConvierte el siguiente esquema en un formato JSON estructurado. La sección final debe marcarse como el segmento de conclusión.\n\n<outline>\n\x7b\x7boutline\x7d\x7d\n</outline>\n\nRequisitos de Salida:\n1. Cada segmento debe incluir:\n   - nombre de sección\n   - duración (en minutos) representando la longitud del segmento\n   - lista de referencias (rutas de archivo)\n   - lista de temas, donde cada tema tiene:\n     - título\n     - lista de puntos detallados\n\n2. La estructura general debe incluir:\n   - título del podcast\n   - lista completa de segmentos\n\n3. Notas importantes:\n   - Las referencias deben elegirse de esta lista de nombres de archivo válidos: \x7b\x7b valid_filenames \x7d\x7d\n   - Las referencias solo deben aparecer en el array \"references\" del segmento, no como un tema\n   - La duración representa la longitud de cada segmento, no su marca de tiempo de inicio\n   - La duración de cada segmento debe ser un número positivo\n\nEl resultado debe conformarse al siguiente esquema JSON:\n\x7b\x7b schema \x7d\x7d\n"

def podcast_prompts.PODCAST_PROMPT_WITH_REFERENCES_STR : String :=
  "\nCrea una transcripción incorporando detalles del material fuente proporcionado:\n\nTexto Fuente:\n\x7b\x7b text \x7d\x7d\n\nParámetros:\n- Duración: \x7b\x7b duration \x7d\x7d minutos (~\x7b\x7b (duration * 180) | int \x7d\x7d palabras)\n- Tema: \x7b\x7b topic \x7d\x7d\n- Áreas de Enfoque: \x7b\x7b angles \x7d\x7d\n\nRequisitos:\n1. Integración de Contenido\n  - Haz referencia a citas clave con nombre del hablante e institución\n  - Explica la información citada en términos accesibles\n  - Identifica consensos y desacuerdos entre las fuentes\n  - Analiza el razonamiento detrás de diferentes puntos de vista\n\n2. Presentación\n  - Desglosa conceptos complejos para audiencia general\n  - Usa analogías y ejemplos relevantes\n  - Aborda preguntas anticipadas\n  - Proporciona contexto necesario a lo largo del contenido\n  - Mantén precisión factual, especialmente con números\n  - Cubre todas las áreas de enfoque comprehensivamente dentro del límite de tiempo\n\nAsegura cobertura exhaustiva de cada tema mientras preservas la precisión y matices del material fuente.\n"

def podcast_prompts.PODCAST_PROMPT_NO_REFERENCES_STR : String :=
  "\nCrea una transcripción basada en conocimiento siguiendo este esquema:\n\nParámetros:\n- Duración: \x7b\x7b duration \x7d\x7d minutos (~\x7b\x7b (duration * 180) | int \x7d\x7d palabras)\n- Tema: \x7b\x7b topic \x7d\x7d\n- Áreas de Enfoque: \x7b\x7b angles \x7d\x7d\n\n1. Lluvia de Ideas de Conocimiento\n   - Mapea el panorama del conocimiento disponible\n   - Identifica principios y marcos clave\n   - Nota debates importantes y perspectivas\n   - Lista ejemplos y aplicaciones relevantes\n   - Considera contexto histórico y desarrollo\n\n2. Desarrollo de Contenido\n   - Extrae de una base de conocimiento comprehensiva\n   - Presenta puntos de vista equilibrados\n   - Apoya afirmaciones con razonamiento claro\n   - Conecta temas lógicamente\n   - Construye entendimiento progresivamente\n\n3. Presentación\n   - Desglosa conceptos complejos para audiencia general\n   - Usa analogías y ejemplos relevantes\n   - Aborda preguntas anticipadas\n   - Proporciona contexto necesario a lo largo del contenido\n   - Mantén precisión factual, especialmente con números\n   - Cubre todas las áreas de enfoque comprehensivamente dentro del límite de tiempo\n\nDesarrolla una exploración exhaustiva de cada tema usando el conocimiento disponible. Comienza con una lluvia de ideas cuidadosa para mapear conexiones entre ideas, luego construye una narrativa clara que haga conceptos complejos accesibles mientras mantiene precisión y completitud.\n"

def podcast_prompts.PODCAST_TRANSCRIPT_TO_DIALOGUE_PROMPT_STR : String :=
  "\nTu tarea es transformar la transcripción proporcionada en un diálogo de podcast atractivo e informativo.\n\nHay dos hablantes:\n\n- **Anfitrión**: \x7b\x7b speaker_1_name \x7d\x7d, el presentador del podcast.\n- **Invitado**: \x7b\x7b speaker_2_name \x7d\x7d, un experto en el tema.\n\n**Instrucciones:**\n\n- **Pautas de Contenido:**\n    - Presenta la información de manera clara y precisa.\n    - Explica términos complejos o conceptos en lenguaje simple.\n    - Discute puntos clave, perspectivas y ideas de la transcripción.\n    - Incluye el análisis experto y las perspectivas del invitado sobre el tema.\n    - Incorpora citas relevantes, anécdotas y ejemplos de la transcripción.\n    - Aborda preguntas comunes o preocupaciones relacionadas con el tema, si es aplicable.\n    - Trae conflicto y desacuerdo a la discusión, pero converge hacia una conclusión.\n\n- **Tono y Estilo:**\n    - Mantén un tono profesional pero conversacional.\n    - Usa lenguaje claro y conciso.\n    - Incorpora patrones de habla naturales, incluyendo muletillas ocasionales (ej., \"bueno,\" \"sabes\")—usadas con moderación y apropiadamente.\n    - Asegura que el diálogo fluya suavemente, reflejando una conversación de la vida real.\n    - Mantén un ritmo animado con una mezcla de discusión seria y momentos más ligeros.\n    - Usa preguntas retóricas o hipotéticas para involucrar al oyente.\n    - Crea momentos naturales de reflexión o énfasis.\n    - Permite interrupciones naturales e intercambios entre anfitrión e invitado.\n\n- **Pautas Adicionales:**\n    - Menciona los nombres de los hablantes ocasionalmente para hacer la conversación más natural.\n    - Asegura que las respuestas del invitado estén respaldadas por el texto de entrada, evitando afirmaciones no sustentadas.\n    - Evita monólogos largos; divide la información en intercambios interactivos.\n    - Usa etiquetas de diálogo para expresar emociones (ej., \"dijo emocionado\", \"respondió pensativamente\") para guiar la síntesis de voz.\n    - Busca autenticidad. Incluye:\n        - Momentos de curiosidad genuina o sorpresa del anfitrión.\n        - Instancias donde el invitado puede pausar para articular ideas complejas.\n        - Momentos ligeros apropiados o humor.\n        - Anécdotas personales breves que se relacionen con el tema (dentro de los límites de la transcripción).\n    - No agregues nueva información que no esté presente en la transcripción.\n    - No pierdas ninguna información o detalles de la transcripción.\n\n**Detalles del Segmento:**\n\n- Duración: Aproximadamente \x7b\x7b duration \x7d\x7d minutos (~\x7b\x7b (duration * 180) | int \x7d\x7d palabras).\n- Tema: \x7b\x7b descriptions \x7d\x7d\n\nDebes mantener todas las analogías, historias, ejemplos y citas de la transcripción.\n\n**Aquí está la transcripción:**\n\n\x7b\x7b text \x7d\x7d\n\n**Por favor, transfórmala en un diálogo de podcast siguiendo las pautas anteriores.**\n\n*Solo devuelve la transcripción completa del diálogo; no incluyas ninguna otra información como presupuesto de tiempo o nombres de segmentos.*\n"

def podcast_prompts.PODCAST_COMBINE_DIALOGUES_PROMPT_STR : String :=
  "Estás revisando una transcripción de podcast para hacerla más atractiva mientras preservas su contenido y estructura. Tienes acceso a tres elementos clave:\n\n1. El esquema del podcast\n<outline>\n\x7b\x7b outline \x7d\x7d\n</outline>\n\n2. La transcripción actual del diálogo\n<dialogue>\n\x7b\x7b dialogue_transcript \x7d\x7d\n</dialogue>\n\n3. La siguiente sección a integrar\n<next_section>\n\x7b\x7b next_section \x7d\x7d\n</next_section>\n\nSección actual siendo integrada: \x7b\x7b current_section \x7d\x7d\n\nTu tarea es:\n- Integrar sin problemas la siguiente sección con el diálogo existente\n- Mantener toda la información clave de ambas secciones\n- Reducir cualquier redundancia mientras mantienes alta densidad de información\n- Dividir monólogos largos en diálogo natural de ida y vuelta\n- Limitar el turno de cada hablante a máximo 3 oraciones\n- Mantener la conversación fluyendo naturalmente entre temas\n\nPautas clave:\n- Evita frases de transición explícitas como \"Bienvenidos de vuelta\" o \"Ahora discutamos\"\n- No agregues introducciones o conclusiones a mitad de conversación\n- No señales cambios de sección en el diálogo\n- Fusiona temas relacionados según el esquema\n- Mantén el tono conversacional natural a lo largo del contenido\n\nPor favor, produce la transcripción completa revisada del diálogo desde el principio, con la siguiente sección integrada sin problemas."

def podcast_prompts.PODCAST_DIALOGUE_PROMPT_STR : String :=
  "Se te ha asignado convertir una transcripción de podcast en un formato JSON estructurado. Tienes:\n\n1. Dos hablantes:\n   - Hablante 1: \x7b\x7b speaker_1_name \x7d\x7d\n   - Hablante 2: \x7b\x7b speaker_2_name \x7d\x7d\n\n2. La transcripción original:\n\x7b\x7b text \x7d\x7d\n\n3. Esquema de salida requerido:\n\x7b\x7b schema \x7d\x7d\n\nTu tarea es:\n- Convertir la transcripción exactamente al formato JSON especificado\n- Preservar todo el contenido del diálogo sin omisiones\n- Mapear las líneas de \x7b\x7b speaker_1_name \x7d\x7d a \"speaker-1\"\n- Mapear las líneas de \x7b\x7b speaker_2_name \x7d\x7d a \"speaker-2\"\n\nDebes absolutamente, sin excepción:\n- Usar caracteres Unicode apropiados directamente (ej., usar \x27 en lugar de \\u2019)\n- Asegurar que todas las apostrofes, comillas y caracteres especiales estén formateados apropiadamente\n- No escapar caracteres Unicode en la salida\n\nDebes absolutamente, sin excepción:\n- Convertir todos los números y símbolos a forma hablada:\n  * Los números deben escribirse con palabras (ej., \"mil\" en lugar de \"1000\")\n  * La moneda debe expresarse como \"[cantidad] [unidad de moneda]\" (ej., \"mil dólares\" en lugar de \"$1000\")\n  * Los símbolos matemáticos deben hablarse (ej., \"igual a\" en lugar de \"=\", \"más\" en lugar de \"+\")\n  * Los porcentajes deben hablarse como \"por ciento\" (ej., \"cincuenta por ciento\" en lugar de \"50%\")\n\nPor favor, produce el JSON siguiendo el esquema proporcionado, manteniendo todos los detalles conversacionales y atribuciones de hablantes. La salida debe usar caracteres Unicode apropiados directamente, no secuencias escapadas. No produzcas nada más que el JSON."

def podcast_prompts.PROMPT_TEMPLATES : List (String × String) := [
  ("podcast_summary_prompt", podcast_prompts.PODCAST_SUMMARY_PROMPT_STR),
  ("podcast_multi_pdf_outline_prompt", podcast_prompts.PODCAST_MULTI_PDF_OUTLINE_PROMPT_STR),
  ("podcast_multi_pdf_structured_outline_prompt", podcast_prompts.PODCAST_MULTI_PDF_STRUCUTRED_OUTLINE_PROMPT_STR),
  ("podcast_prompt_with_references", podcast_prompts.PODCAST_PROMPT_WITH_REFERENCES_STR),
  ("podcast_prompt_no_references", podcast_prompts.PODCAST_PROMPT_NO_REFERENCES_STR),
  ("podcast_transcript_to_dialogue_prompt", podcast_prompts.PODCAST_TRANSCRIPT_TO_DIALOGUE_PROMPT_STR),
  ("podcast_combine_dialogues_prompt", podcast_prompts.PODCAST_COMBINE_DIALOGUES_PROMPT_STR),
  ("podcast_dialogue_prompt", podcast_prompts.PODCAST_DIALOGUE_PROMPT_STR)
]

-- ===== monologue_prompts =====
def monologue_prompts.MONOLOGUE_SUMMARY_PROMPT_STR : String :=
  "\nEres un analista conocedor. Por favor proporciona un análisis dirigido del siguiente documento, enfocándote en: \x7b\x7b focus \x7d\x7d\n\n<document>\n\x7b\x7btext\x7d\x7d\n</document>\n\nRequisitos para el análisis:\n1. Información Esencial:\n  - Métricas clave y puntos de datos\n  - Tendencias importantes\n  - Patrones notables\n  - Proyecciones futuras\n  - Perspectivas estratégicas\n\n2. Contexto del Documento:\n  - Tipo y propósito del documento\n  - Entidades relevantes\n  - Período de tiempo cubierto\n  - Actores clave\n\n3. Precisión de Datos:\n  - Preserva valores numéricos exactos\n  - Mantén fechas específicas\n  - Conserva terminología precisa\n  - Incluye revelaciones importantes textualmente cuando sea relevante\n\n4. Requisitos de Conversión de Texto:\n  - Escribe todos los números en forma de palabra (ej., \"mil millones\" no \"1B\")\n  - Expresa moneda como \"[cantidad] [unidad]\" (ej., \"cincuenta millones de dólares\")\n  - Escribe porcentajes en forma hablada (ej., \"veinticinco por ciento\")\n  - Deletrea operaciones matemáticas (ej., \"aumentó en\" no \"+\")\n  - Usa caracteres Unicode apropiados\n\nFormatea el análisis usando markdown con encabezados claros y viñetas. Sé enfocado y específico,\nCondensa la información en métricas fácilmente digeribles en formato de audiolibro sin hacerlo pesado en estadísticas/números, enfócate más en las áreas de crecimiento y tendencias de la empresa.\nEstás presentando a la junta directiva. Habla de una manera que sea atractiva e informativa, pero no demasiado técnica y habla en primera persona.\n"

def monologue_prompts.MONOLOGUE_MULTI_DOC_SYNTHESIS_PROMPT_STR : String :=
  "\nCrea un esquema de monólogo estructurado sintetizando los siguientes resúmenes de documentos. El monólogo debe durar 30-45 segundos.\n\nÁreas de Enfoque y Temas Clave:\n\x7b% if focus_instructions %\x7d\n\x7b\x7bfocus_instructions\x7d\x7d\n\x7b% else %\x7d\nUsa tu juicio para identificar y priorizar los temas, métricas y perspectivas más importantes en todos los documentos.\n\x7b% endif %\x7d\n\nDocumentos Fuente Disponibles:\n\x7b\x7bdocuments\x7d\x7d\n\nRequisitos:\n1. Estrategia de Contenido\n   - Enfócate en el contenido de los Documentos Objetivo, y usa los Documentos de Contexto como apoyo\n   - Identifica métricas clave y tendencias\n   - Analiza implicaciones potenciales\n   - Establece conexiones entre documentos y áreas de enfoque\n\n2. Requisitos de Estructura\n   - Crea un flujo narrativo claro\n   - Equilibra profundidad vs amplitud de cobertura\n   - Asegura transiciones lógicas de temas\n   - Mantén precisión y exactitud financiera\n\n3. Gestión del Tiempo\n   - Asigna tiempo basado en importancia del tema\n   - Permite ritmo natural y énfasis\n   - Incluye pausas breves para puntos clave\n   - Mantente dentro de la duración total\n\n4. Requisitos de Formato de Texto:\n   - Escribe números en forma de palabra\n   - Formatea moneda como \"[cantidad] [unidad]\"\n   - Expresa porcentajes en forma hablada\n   - Escribe operaciones matemáticas\n\nProduce un esquema estructurado que sintetice perspectivas a través de todos los documentos, enfatizando Documentos Objetivo mientras usa Documentos de Contexto para apoyo."

def monologue_prompts.MONOLOGUE_TRANSCRIPT_PROMPT_STR : String :=
  "\nCrea una actualización enfocada basada en este esquema y documentos fuente.\n\nEsquema:\n\x7b\x7b raw_outline \x7d\x7d\n\nDocumentos Fuente Disponibles:\n\x7b% for doc in documents %\x7d\n<document>\n<type>\x7b\"Documento Objetivo\" if doc.type == \"target\" else \"Documento de Contexto\"\x7d</type>\n<path>\x7b\x7bdoc.filename\x7d\x7d</path>\n<summary>\n\x7b\x7bdoc.summary\x7d\x7d\n</summary>\n</document>\n\x7b% endfor %\x7d\n\nÁreas de Enfoque: \x7b\x7b focus \x7d\x7d\n\nParámetros:\n- Duración: 30 segundos (~90 palabras)\n- Locutor: \x7b\x7b speaker_1_name \x7d\x7d\n- Estructura: Sigue el esquema mientras mantienes:\n  * Apertura (5-7 palabras)\n  * Puntos clave del esquema (60-70 palabras)\n  * Evidencia de apoyo (15-20 palabras)\n  * Conclusión (10-15 palabras)\n\nRequisitos:\n1. Patrón de Habla\n   - Usa entrega estilo transmisión\n   - Pausas naturales y énfasis\n   - Tono profesional pero conversacional\n   - Atribución clara de fuentes\n\n2. Estructura de Contenido\n   - Prioriza insights de Documentos Objetivo\n   - Apoya con Documentos de Contexto donde sea relevante\n   - Mantén flujo lógico entre puntos\n   - Termina con una conclusión clara\n\n3. Formato de Texto:\n   - Todos los números en forma de palabra\n   - Moneda como \"[cantidad] [unidad]\"\n   - Porcentajes en forma hablada\n   - Operaciones matemáticas escritas\n\nCrea un monólogo conciso y atractivo que siga el esquema mientras entrega información financiera esencial."

def monologue_prompts.MONOLOGUE_DIALOGUE_PROMPT_STR : String :=
  "Se te ha asignado convertir un monólogo financiero en un formato JSON estructurado. Tienes:\n\n1. Información del hablante:\n   - Hablante: \x7b\x7b speaker_1_name \x7d\x7d (mapeado a \"speaker-1\")\n\n2. El monólogo original:\n\x7b\x7b text \x7d\x7d\n\n3. Esquema de salida requerido:\n\x7b\x7b schema \x7d\x7d\n\nTu tarea es:\n- Convertir el monólogo exactamente al formato JSON especificado\n- Preservar todo el contenido sin omisiones\n- Mapear todo el contenido a \"speaker-1\"\n- Mantener toda la precisión de datos financieros\n\nDebes absolutamente, sin excepción:\n- Usar caracteres Unicode apropiados directamente (ej., usar \x27 en lugar de \\u2019)\n- Asegurar que todas las apostrofes, comillas y caracteres especiales estén formateados apropiadamente\n- No escapar caracteres Unicode en la salida\n\nDebes absolutamente, sin excepción:\n- Convertir todos los números y símbolos a forma hablada:\n  * Los números deben escribirse con palabras (ej., \"mil millones\" en lugar de \"1B\")\n  * La moneda debe expresarse como \"[cantidad] [unidad de moneda]\" (ej., \"cincuenta millones de dólares\" en lugar de \"$50M\")\n  * Los símbolos matemáticos deben hablarse (ej., \"aumentó en\" en lugar de \"+\")\n  * Los porcentajes deben hablarse como \"por ciento\" (ej., \"veinticinco por ciento\" en lugar de \"25%\")\n\nPor favor, produce el JSON siguiendo el esquema proporcionado, manteniendo todos los detalles financieros y formato apropiado. La salida debe usar caracteres Unicode apropiados directamente, no secuencias escapadas. No produzcas nada más que el JSON."

def monologue_prompts.PROMPT_TEMPLATES : List (String × String) := [
  ("monologue_summary_prompt", monologue_prompts.MONOLOGUE_SUMMARY_PROMPT_STR),
  ("monologue_multi_doc_synthesis_prompt", monologue_prompts.MONOLOGUE_MULTI_DOC_SYNTHESIS_PROMPT_STR),
  ("monologue_transcript_prompt", monologue_prompts.MONOLOGUE_TRANSCRIPT_PROMPT_STR),
  ("monologue_dialogue_prompt", monologue_prompts.MONOLOGUE_DIALOGUE_PROMPT_STR)
]


/-- The compiled-template dictionary of `podcast_prompts.py`:
`{name: jinja2.Template(template) for name, template in PROMPT_TEMPLATES.items()}`. -/
def podcast_prompts.TEMPLATES : List (String × Jinja2Template) :=
  podcast_prompts.PROMPT_TEMPLATES.map (fun p => (p.1, jinja2Template p.2))

/-- The compiled-template dictionary of `monologue_prompts.py`, built by the
same comprehension over its `PROMPT_TEMPLATES`. -/
def monologue_prompts.TEMPLATES : List (String × Jinja2Template) :=
  monologue_prompts.PROMPT_TEMPLATES.map (fun p => (p.1, jinja2Template p.2))

/-- `PodcastPrompts.get_template(name)`: returns `TEMPLATES[name]`, raising
`KeyError(name)` when the name is absent. -/
def PodcastPrompts.get_template (name : String) : Except PyExc Jinja2Template :=
  match podcast_prompts.TEMPLATES.lookup name with
  | some t => .ok t
  | none => .error (.keyError name)

/-- Attribute access on a `PodcastPrompts` instance (normal resolution, then
`PodcastPrompts.__getattr__`). -/
def PodcastPrompts.getattr (name : String) : Except PyExc AttrValue :=
  pythonGetattr podcast_prompts.PROMPT_TEMPLATES "PodcastPrompts" name

/-- `FinancialSummaryPrompts.get_template(name)`: returns `TEMPLATES[name]`,
raising `KeyError(name)` when the name is absent. -/
def FinancialSummaryPrompts.get_template (name : String) :
    Except PyExc Jinja2Template :=
  match monologue_prompts.TEMPLATES.lookup name with
  | some t => .ok t
  | none => .error (.keyError name)

/-- Attribute access on a `FinancialSummaryPrompts` instance (normal
resolution, then `FinancialSummaryPrompts.__getattr__`). -/
def FinancialSummaryPrompts.getattr (name : String) : Except PyExc AttrValue :=
  pythonGetattr monologue_prompts.PROMPT_TEMPLATES "FinancialSummaryPrompts" name


/-- The mutable store visible to the catalog lookups of one prompt module:
the module-level dictionaries `PROMPT_TEMPLATES` and `TEMPLATES`. -/
structure CatalogState where
  prompt_templates : List (String × String)
  templates : List (String × Jinja2Template)
deriving DecidableEq

/-- The catalog state of `podcast_prompts.py` right after module load. -/
def podcastCatalog : CatalogState :=
  { prompt_templates := podcast_prompts.PROMPT_TEMPLATES,
    templates := podcast_prompts.TEMPLATES }

/-- The catalog state of `monologue_prompts.py` right after module load. -/
def monologueCatalog : CatalogState :=
  { prompt_templates := monologue_prompts.PROMPT_TEMPLATES,
    templates := monologue_prompts.TEMPLATES }

/-- One catalog lookup: either Python attribute access of `name` on a
prompt-class instance, or a `get_template(name)` call. -/
inductive LookupOp where
  | attr (name : String)
  | templ (name : String)

/-- Attribute access run against an explicit catalog state: reads
`st.prompt_templates`, returns the state it leaves behind. The Python body
of `__getattr__` only reads the dictionary. -/
def getattrSt (className : String) (st : CatalogState) (name : String) :
    Except PyExc AttrValue × CatalogState :=
  (pythonGetattr st.prompt_templates className name, st)

/-- `get_template` run against an explicit catalog state: reads
`st.templates`, returns the state it leaves behind. -/
def get_templateSt (st : CatalogState) (name : String) :
    Except PyExc Jinja2Template × CatalogState :=
  (match st.templates.lookup name with
    | some t => .ok t
    | none => .error (.keyError name), st)

/-- Runs a sequence of catalog lookups, threading the catalog state through,
and returns the final state. -/
def runLookups (className : String) (st : CatalogState) : List LookupOp → CatalogState
  | [] => st
  | .attr name :: ops => runLookups className (getattrSt className st name).2 ops
  | .templ name :: ops => runLookups className (get_templateSt st name).2 ops

/-- Modelled from the spec: the error taxonomy of §7 for the query manager
(`shared/llmmanager.py` is not under `src/`), plus the 4xx-equivalent
client error of §4.3 that is "NOT retried and is surfaced immediately". -/
inductive QueryError where
  | unknownModelError
  | transientBackendError
  | schemaViolationError
  | streamOrderingError
  | cancelledError
  | clientError
deriving DecidableEq, Repr

/-- Modelled from the spec: a `ModelEndpoint` of §3 — backend connection
parameters a `model_key` resolves to in the Model Registry. -/
structure ModelEndpoint where
  backend_url : String
  model_id : String
deriving DecidableEq, Repr

/-- Modelled from the spec: `resolve(model_key) -> ModelEndpoint` of §4.1;
"Fails with `UnknownModelError` if `model_key` is absent." -/
def resolve (registry : List (String × ModelEndpoint)) (key : String) :
    Except QueryError ModelEndpoint :=
  match registry.lookup key with
  | some ep => .ok ep
  | none => .error .unknownModelError

/-- Modelled from the spec: a `StreamChunk` of §3. -/
structure StreamChunk where
  sequence_index : Nat
  delta : String
  is_final : Bool
deriving DecidableEq, Repr

/-- Ordering of stream chunks by their `sequence_index`. -/
def chunkLE (a b : StreamChunk) : Prop := a.sequence_index ≤ b.sequence_index

/-- Strict ordering of stream chunks by their `sequence_index`. -/
def chunkLT (a b : StreamChunk) : Prop := a.sequence_index < b.sequence_index

instance : DecidableRel chunkLE := fun a b => Nat.decLe _ _

instance : IsTotal StreamChunk chunkLE := ⟨fun a b => Nat.le_total _ _⟩

instance : IsTrans StreamChunk chunkLE := ⟨fun _ _ _ h h' => Nat.le_trans h h'⟩

instance : IsAntisymm StreamChunk chunkLT :=
  ⟨fun _ _ h h' => absurd h' (Nat.lt_asymm h)⟩

/-- `chain1 xs` holds when each element of `xs` is the predecessor's
successor — i.e. `xs` is a strictly increasing run with no gap. -/
def chain1 : List Nat → Bool
  | a :: b :: t => (b == a + 1) && chain1 (b :: t)
  | _ => true

/-- Modelled from the spec: `aggregate(stream of StreamChunk)` of §4.4 —
"Concatenates `delta` fields strictly in `sequence_index` order (never
assumes arrival order equals sequence order — chunks must be reordered …
the aggregator still validates strict increasing sequence and fails with
`StreamOrderingError` on a gap or duplicate)." -/
def aggregate (chunks : List StreamChunk) : Except QueryError String :=
  let sorted := List.insertionSort chunkLE chunks
  if chain1 (sorted.map StreamChunk.sequence_index) then
    .ok (String.join (sorted.map StreamChunk.delta))
  else
    .error .streamOrderingError

/-- Modelled from the spec: one backend attempt's outcome — a complete
response, a transient (timeout / 5xx-equivalent) failure, or a
4xx-equivalent client failure (§4.3). -/
inductive BackendOutcome where
  | ok (text : String)
  | transient
  | clientError
deriving DecidableEq, Repr

/-- Modelled from the spec: a (stub) backend: `outcome i` is what the backend
does on its `i`-th attempt for this call, and `chunksOf t` is the ordered
sequence of partial payloads into which the backend splits the payload `t`
when streaming (§6: "response is either a single payload or an ordered
sequence of partial payloads"). -/
structure Backend where
  outcome : Nat → BackendOutcome
  chunksOf : String → List String

/-- Modelled from the spec: the retry loop of §4.3 — up to `fuel` attempts;
a transient error is retried, a client error is surfaced immediately, and
exhausting the bound surfaces `TransientBackendError`. Returns the number
of backend attempts actually made alongside the outcome. -/
def runAttempts (b : Backend) : Nat → Nat → Nat × Except QueryError String
  | 0, _ => (0, .error .transientBackendError)
  | fuel + 1, i =>
    match b.outcome i with
    | .ok t => (1, .ok t)
    | .clientError => (1, .error .clientError)
    | .transient =>
      let r := runAttempts b fuel (i + 1)
      (r.1 + 1, r.2)

/-- Modelled from the spec: the executor tags each partial payload with its
sequence index and marks the last one as final, yielding the `StreamChunk`
sequence of §3. -/
def mkStreamChunks (deltas : List String) : List StreamChunk :=
  deltas.enum.map (fun p => ⟨p.1, p.2, p.1 + 1 == deltas.length⟩)

/-- Modelled from the spec: the four execution modes of §4.3 as an explicit
mode tag (§9: "a sum type over {Sync, Async, StreamSync, StreamAsync}"). -/
inductive Mode where
  | sync
  | async
  | streamSync
  | streamAsync
deriving DecidableEq, Repr

/-- Modelled from the spec: `execute(endpoint, request, mode)` of §4.3 with
the retry policy applied; in the streaming modes the complete payload is
delivered as tagged chunks and aggregated (§4.3: "aggregated before return
to the manager's sync API"). Returns the backend-attempt count with the
result. -/
def executeMode (b : Backend) (bound : Nat) (mode : Mode) :
    Nat × Except QueryError String :=
  match runAttempts b bound 0 with
  | (c, .ok t) =>
    match mode with
    | .sync | .async => (c, .ok t)
    | .streamSync | .streamAsync => (c, aggregate (mkStreamChunks (b.chunksOf t)))
  | (c, .error e) => (c, .error e)

/-- Modelled from the spec: a JSON schema, abstracted to its validation
behaviour — `validate t` decides whether the text `t` parses as JSON and
conforms to the schema (§4.4). -/
structure JsonSchema where
  validate : String → Bool

/-- Modelled from the spec: the schema-enforcement step of §4.4 — "If
`json_schema` was requested, attempts to parse the concatenated text as JSON
and validate against schema; failure raises `SchemaViolationError`, never
silently returns partial/invalid JSON." -/
def finalizeResult (schema : Option JsonSchema) :
    Except QueryError String → Except QueryError String
  | .ok t =>
    match schema with
    | none => .ok t
    | some s => if s.validate t then .ok t else .error .schemaViolationError
  | .error e => .error e

/-- Modelled from the spec: span status at close — §4.5's terminal states. -/
inductive SpanStatus where
  | succeeded
  | failed
deriving DecidableEq, Repr

/-- Modelled from the spec: the telemetry signals a call emits — a span is
opened and later closed with a terminal status (§3, §4.2). -/
inductive TelemetryEvent where
  | spanOpen (query_name : String)
  | spanClose (query_name : String) (st : SpanStatus)
deriving DecidableEq, Repr

/-- Modelled from the spec: a message of a `QueryRequest` (§3). -/
structure Message where
  role : String
  content : String
deriving DecidableEq, Repr

/-- Modelled from the spec: a `QueryRequest` of §3. -/
structure QueryRequest where
  model_key : String
  messages : List Message
  query_name : String
  json_schema : Option JsonSchema

/-- Modelled from the spec: what one manager call produces — the result
returned (or typed error raised) to the caller, the number of backend
attempts made, and the telemetry events emitted, in order. -/
structure CallOutcome where
  result : Except QueryError String
  backendCalls : Nat
  events : List TelemetryEvent

/-- The terminal span status recorded for a call result (§7: "Every error
path still closes its Span with status and error detail"). -/
def statusOf : Except QueryError String → SpanStatus
  | .ok _ => .succeeded
  | .error _ => .failed

/-- Modelled from the spec: one Query Manager call (§4.5, §2 control flow):
open the span at call start, resolve the model key (failing with
`UnknownModelError` before any backend attempt), execute in the given mode
with the retry policy, enforce the schema, and close the span exactly once
with the terminal status. -/
def managerCall (registry : List (String × ModelEndpoint)) (b : Backend)
    (retryBound : Nat) (mode : Mode) (req : QueryRequest) : CallOutcome :=
  match resolve registry req.model_key with
  | .error e =>
    { result := .error e
      backendCalls := 0
      events := [.spanOpen req.query_name, .spanClose req.query_name .failed] }
  | .ok _ =>
    let c := executeMode b retryBound mode
    let r := finalizeResult req.json_schema c.2
    { result := r
      backendCalls := c.1
      events := [.spanOpen req.query_name, .spanClose req.query_name (statusOf r)] }

/-- Modelled from the spec: the facade entry point `query_sync` (§4.5). -/
def query_sync (registry : List (String × ModelEndpoint)) (b : Backend)
    (retryBound : Nat) (req : QueryRequest) : CallOutcome :=
  managerCall registry b retryBound .sync req

/-- Modelled from the spec: the facade entry point `query_async` (§4.5); the
async path suspends at I/O but returns the same single complete response. -/
def query_async (registry : List (String × ModelEndpoint)) (b : Backend)
    (retryBound : Nat) (req : QueryRequest) : CallOutcome :=
  managerCall registry b retryBound .async req

/-- Modelled from the spec: the facade entry point `stream_sync` (§4.5),
returning the fully aggregated text (§4.3). -/
def stream_sync (registry : List (String × ModelEndpoint)) (b : Backend)
    (retryBound : Nat) (req : QueryRequest) : CallOutcome :=
  managerCall registry b retryBound .streamSync req

/-- Modelled from the spec: the facade entry point `stream_async` (§4.5),
returning the fully aggregated text (§4.3). -/
def stream_async (registry : List (String × ModelEndpoint)) (b : Backend)
    (retryBound : Nat) (req : QueryRequest) : CallOutcome :=
  managerCall registry b retryBound .streamAsync req

/-- A successful association-list lookup means the key occurs among the keys. -/
theorem lookup_some_mem_keys {α β : Type} [BEq α] [LawfulBEq α]
    {l : List (α × β)} {a : α} {b : β} (h : l.lookup a = some b) :
    a ∈ l.map Prod.fst := by
  induction l with
  | nil => simp [List.lookup] at h
  | cons p t ih =>
    obtain ⟨k, v⟩ := p
    rw [List.lookup] at h
    by_cases hk : a == k
    · simp only [List.map_cons, List.mem_cons]
      exact Or.inl (eq_of_beq hk)
    · rw [Bool.not_eq_true] at hk
      rw [hk] at h
      exact List.mem_cons_of_mem _ (ih h)

/-- Lookup in a value-mapped association list is the mapped lookup. -/
theorem lookup_map_value {α β γ : Type} [BEq α]
    (f : β → γ) (l : List (α × β)) (a : α) :
    (l.map (fun p => (p.1, f p.2))).lookup a = (l.lookup a).map f := by
  induction l with
  | nil => rfl
  | cons p t ih =>
    obtain ⟨k, v⟩ := p
    simp only [List.map_cons, List.lookup]
    by_cases hk : a == k
    · rw [hk]
      rfl
    · rw [Bool.not_eq_true] at hk
      rw [hk, ih]

/-- Unfolding step of `chain1` at two leading elements. -/
theorem chain1_cons_cons (a b : Nat) (t : List Nat) :
    chain1 (a :: b :: t) = ((b == a + 1) && chain1 (b :: t)) := rfl

/-- A gap-free increasing run is strictly pairwise increasing. -/
theorem chain1_pairwise : ∀ xs : List Nat, chain1 xs = true →
    List.Pairwise (· < ·) xs
  | [], _ => List.Pairwise.nil
  | [_], _ => List.pairwise_singleton _ _
  | a :: b :: t, h => by
    rw [chain1_cons_cons, Bool.and_eq_true, beq_iff_eq] at h
    obtain ⟨hb, hrest⟩ := h
    have ih := chain1_pairwise (b :: t) hrest
    refine List.Pairwise.cons ?_ ih
    intro c hc
    rcases List.mem_cons.mp hc with rfl | hc
    · omega
    · have := List.rel_of_pairwise_cons ih hc
      omega

/-- A contiguous range is a gap-free increasing run. -/
theorem chain1_range' : ∀ (n m : Nat), chain1 (List.range' m n) = true
  | 0, _ => rfl
  | 1, _ => rfl
  | n + 2, m => by
    rw [List.range'_succ m (n + 1) 1, List.range'_succ (m + 1) n 1]
    rw [chain1_cons_cons, Bool.and_eq_true, beq_iff_eq]
    refine ⟨rfl, ?_⟩
    rw [← List.range'_succ (m + 1) n 1]
    exact chain1_range' (n + 1) (m + 1)

/-- A gap-free increasing run is exactly the contiguous range starting at its
head. -/
theorem chain1_eq_range' : ∀ xs : List Nat, chain1 xs = true →
    xs = List.range' (xs.headD 0) xs.length
  | [], _ => rfl
  | [a], _ => by simp [List.range'_succ]
  | a :: b :: t, h => by
    rw [chain1_cons_cons, Bool.and_eq_true, beq_iff_eq] at h
    obtain ⟨hb, hrest⟩ := h
    have ih := chain1_eq_range' (b :: t) hrest
    simp only [List.headD_cons] at ih ⊢
    rw [List.length_cons, List.range'_succ a _ 1]
    subst hb
    exact congrArg _ ih

/-- Two arrangements of the same chunks that are both strictly
index-increasing are equal. -/
theorem sorted_chunkLT_unique {l₁ l₂ : List StreamChunk} (p : l₁.Perm l₂)
    (h₁ : l₁.Pairwise chunkLT) (h₂ : l₂.Pairwise chunkLT) : l₁ = l₂ :=
  List.eq_of_perm_of_sorted p h₁ h₂

/-- Strict pairwise increase of the mapped indices lifts to `chunkLT`. -/
theorem pairwise_chunkLT_of_map {l : List StreamChunk}
    (h : List.Pairwise (· < ·) (l.map StreamChunk.sequence_index)) :
    l.Pairwise chunkLT := by
  have h' := List.pairwise_map.mp h
  exact h'.imp (fun hab => hab)

/-- `chunkLE`-sortedness means the mapped index list is `≤`-sorted. -/
theorem sorted_map_index {l : List StreamChunk} (h : l.Pairwise chunkLE) :
    List.Sorted (· ≤ ·) (l.map StreamChunk.sequence_index) :=
  List.pairwise_map.mpr (h.imp (fun hab => hab))

/-- Unfolding of `aggregate`. -/
theorem aggregate_eq (l : List StreamChunk) :
    aggregate l =
      (if chain1 ((List.insertionSort chunkLE l).map StreamChunk.sequence_index) then
        .ok (String.join ((List.insertionSort chunkLE l).map StreamChunk.delta))
      else
        .error .streamOrderingError) := rfl

/-- The sorted index list of a chunk list depends only on its multiset. -/
theorem sortedKeys_eq_of_perm {l₁ l₂ : List StreamChunk} (h : l₁.Perm l₂) :
    (List.insertionSort chunkLE l₁).map StreamChunk.sequence_index =
      (List.insertionSort chunkLE l₂).map StreamChunk.sequence_index := by
  have p : (List.insertionSort chunkLE l₁).Perm (List.insertionSort chunkLE l₂) :=
    (List.perm_insertionSort _ l₁).trans (h.trans (List.perm_insertionSort _ l₂).symm)
  have s₁ := sorted_map_index (List.sorted_insertionSort chunkLE l₁)
  have s₂ := sorted_map_index (List.sorted_insertionSort chunkLE l₂)
  exact List.eq_of_perm_of_sorted (p.map _) s₁ s₂

/-- Aggregation is invariant under permutation of the arrival order. -/
theorem aggregate_perm {l₁ l₂ : List StreamChunk} (h : l₁.Perm l₂) :
    aggregate l₁ = aggregate l₂ := by
  have p : (List.insertionSort chunkLE l₁).Perm (List.insertionSort chunkLE l₂) :=
    (List.perm_insertionSort _ l₁).trans (h.trans (List.perm_insertionSort _ l₂).symm)
  have hkeys := sortedKeys_eq_of_perm h
  by_cases hc :
      chain1 ((List.insertionSort chunkLE l₁).map StreamChunk.sequence_index) = true
  · have hlt₁ : (List.insertionSort chunkLE l₁).Pairwise chunkLT :=
      pairwise_chunkLT_of_map (chain1_pairwise _ hc)
    have hlt₂ : (List.insertionSort chunkLE l₂).Pairwise chunkLT :=
      pairwise_chunkLT_of_map (chain1_pairwise _ (hkeys ▸ hc))
    have hs : List.insertionSort chunkLE l₁ = List.insertionSort chunkLE l₂ :=
      sorted_chunkLT_unique p hlt₁ hlt₂
    rw [aggregate_eq, aggregate_eq, hs]
  · have hc₂ :
        ¬ chain1 ((List.insertionSort chunkLE l₂).map StreamChunk.sequence_index) = true := by
      rw [← hkeys]
      exact hc
    rw [aggregate_eq, aggregate_eq, if_neg hc, if_neg hc₂]

/-- When the indices are a permutation of a contiguous range, the sorted index
list is exactly that range. -/
theorem sortedKeys_contiguous {l : List StreamChunk} {m : Nat}
    (h : (l.map StreamChunk.sequence_index).Perm (List.range' m l.length)) :
    (List.insertionSort chunkLE l).map StreamChunk.sequence_index =
      List.range' m l.length := by
  have hp : ((List.insertionSort chunkLE l).map StreamChunk.sequence_index).Perm
      (List.range' m l.length) :=
    (((List.perm_insertionSort chunkLE l).map _)).trans h
  have s₁ := sorted_map_index (List.sorted_insertionSort chunkLE l)
  have s₂ : List.Sorted (· ≤ ·) (List.range' m l.length) :=
    (chain1_pairwise _ (chain1_range' l.length m)).imp (fun hab => Nat.le_of_lt hab)
  exact List.eq_of_perm_of_sorted hp s₁ s₂

/-- On a contiguous duplicate-free index range, aggregation succeeds with the
deltas joined in index order, and the sorted arrangement is strictly
index-increasing. -/
theorem aggregate_ok_of_contiguous {l : List StreamChunk} {m : Nat}
    (h : (l.map StreamChunk.sequence_index).Perm (List.range' m l.length)) :
    aggregate l =
        .ok (String.join ((List.insertionSort chunkLE l).map StreamChunk.delta))
      ∧ (List.insertionSort chunkLE l).Pairwise chunkLT := by
  have hk := sortedKeys_contiguous h
  have hchain :
      chain1 ((List.insertionSort chunkLE l).map StreamChunk.sequence_index) = true := by
    rw [hk]
    exact chain1_range' l.length m
  exact ⟨by rw [aggregate_eq, if_pos hchain],
    pairwise_chunkLT_of_map (chain1_pairwise _ hchain)⟩

/-- When the indices are not a permutation of any contiguous range — i.e.
they contain a gap or a duplicate — aggregation fails with
`StreamOrderingError`. -/
theorem aggregate_error_of_not_contiguous {l : List StreamChunk}
    (h : ∀ m, ¬ (l.map StreamChunk.sequence_index).Perm (List.range' m l.length)) :
    aggregate l = .error .streamOrderingError := by
  rw [aggregate_eq, if_neg]
  intro hchain
  have hr := chain1_eq_range' _ hchain
  have hlen : ((List.insertionSort chunkLE l).map StreamChunk.sequence_index).length
      = l.length := by
    rw [List.length_map, List.length_insertionSort]
  rw [hlen] at hr
  apply h (((List.insertionSort chunkLE l).map StreamChunk.sequence_index).headD 0)
  have hp : (l.map StreamChunk.sequence_index).Perm
      ((List.insertionSort chunkLE l).map StreamChunk.sequence_index) :=
    ((List.perm_insertionSort chunkLE l).map _).symm
  rw [← hr]
  exact hp

/-- The indices of the executor-built chunks are `0, 1, …, n-1`. -/
theorem mkStreamChunks_map_index (ds : List String) :
    (mkStreamChunks ds).map StreamChunk.sequence_index = List.range ds.length := by
  simp only [mkStreamChunks, List.map_map]
  have hfn : StreamChunk.sequence_index ∘
      (fun p : Nat × String =>
        (⟨p.1, p.2, p.1 + 1 == ds.length⟩ : StreamChunk)) = Prod.fst := rfl
  rw [hfn, List.enum_map_fst]

/-- The deltas of the executor-built chunks are the payload pieces. -/
theorem mkStreamChunks_map_delta (ds : List String) :
    (mkStreamChunks ds).map StreamChunk.delta = ds := by
  simp only [mkStreamChunks, List.map_map]
  have hfn : StreamChunk.delta ∘
      (fun p : Nat × String =>
        (⟨p.1, p.2, p.1 + 1 == ds.length⟩ : StreamChunk)) = Prod.snd := rfl
  rw [hfn, List.enum_map_snd]

/-- Aggregating the chunking of a payload reconstructs the joined payload. -/
theorem aggregate_mkStreamChunks (ds : List String) :
    aggregate (mkStreamChunks ds) = .ok (String.join ds) := by
  have hlt : List.Pairwise (· < ·) ((mkStreamChunks ds).map StreamChunk.sequence_index) := by
    rw [mkStreamChunks_map_index]
    exact List.pairwise_lt_range ds.length
  have hsorted : (mkStreamChunks ds).Pairwise chunkLE :=
    (pairwise_chunkLT_of_map hlt).imp (fun hab => Nat.le_of_lt hab)
  have heq : List.insertionSort chunkLE (mkStreamChunks ds) = mkStreamChunks ds :=
    List.Sorted.insertionSort_eq hsorted
  have hchain : chain1 ((mkStreamChunks ds).map StreamChunk.sequence_index) = true := by
    rw [mkStreamChunks_map_index, List.range_eq_range']
    exact chain1_range' ds.length 0
  rw [aggregate_eq, heq, if_pos hchain, mkStreamChunks_map_delta]

/-- One-step unfolding of the retry loop on a transient failure. -/
theorem runAttempts_step_transient (b : Backend) (fuel i : Nat)
    (h0 : b.outcome i = .transient) :
    runAttempts b (fuel + 1) i =
      ((runAttempts b fuel (i + 1)).1 + 1, (runAttempts b fuel (i + 1)).2) := by
  simp only [runAttempts, h0]

/-- A backend that fails transiently on every one of the allowed attempts
exhausts the bound: all attempts are made and `TransientBackendError`
surfaces. -/
theorem runAttempts_all_transient (b : Backend) :
    ∀ (n i : Nat), (∀ j, j < n → b.outcome (i + j) = .transient) →
    runAttempts b n i = (n, .error .transientBackendError)
  | 0, _, _ => rfl
  | n + 1, i, h => by
    have h0 : b.outcome i = .transient := by
      have := h 0 (Nat.succ_pos n)
      simpa using this
    have ih := runAttempts_all_transient b n (i + 1) (fun j hj => by
      have := h (j + 1) (Nat.succ_lt_succ hj)
      rwa [show i + (j + 1) = i + 1 + j by omega] at this)
    simp only [runAttempts, h0, ih]

/-- A backend that fails transiently on every attempt before the last allowed
one and then answers succeeds, using exactly the allowed number of
attempts. -/
theorem runAttempts_succeeds (b : Backend) :
    ∀ (n i : Nat) (t : String), 1 ≤ n →
    (∀ j, j < n - 1 → b.outcome (i + j) = .transient) →
    b.outcome (i + (n - 1)) = .ok t →
    runAttempts b n i = (n, .ok t)
  | 1, i, t, _, _, hok => by
    rw [show i + (1 - 1) = i by omega] at hok
    simp only [runAttempts, hok]
  | n + 2, i, t, _, htr, hok => by
    have h0 : b.outcome i = .transient := by
      have := htr 0 (by omega)
      simpa using this
    have ih := runAttempts_succeeds b (n + 1) (i + 1) t (by omega)
      (fun j hj => by
        have := htr (j + 1) (by omega)
        rwa [show i + (j + 1) = i + 1 + j by omega] at this)
      (by rwa [show i + (n + 2 - 1) = i + 1 + (n + 1 - 1) by omega] at hok)
    rw [runAttempts_step_transient b (n + 1) i h0, ih]

/-- A 4xx-equivalent client failure on the first attempt is surfaced after
exactly one attempt, for any positive bound. -/
theorem runAttempts_client (b : Backend) (n i : Nat)
    (hn : 1 ≤ n) (h : b.outcome i = .clientError) :
    runAttempts b n i = (1, .error .clientError) := by
  cases n with
  | zero => omega
  | succ n => simp only [runAttempts, h]

/-- A first-attempt answer is returned after exactly one attempt, for any
positive bound. -/
theorem runAttempts_first_ok (b : Backend) (n i : Nat) (t : String)
    (hn : 1 ≤ n) (h : b.outcome i = .ok t) :
    runAttempts b n i = (1, .ok t) := by
  cases n with
  | zero => omega
  | succ n => simp only [runAttempts, h]

/-- A manager call whose `model_key` resolves runs the executor and the
schema-enforcement step, closing its span with the terminal status. -/
theorem managerCall_resolved {registry : List (String × ModelEndpoint)}
    {b : Backend} {bound : Nat} {mode : Mode} {req : QueryRequest}
    {ep : ModelEndpoint} (h : resolve registry req.model_key = .ok ep) :
    managerCall registry b bound mode req =
      { result := finalizeResult req.json_schema (executeMode b bound mode).2
        backendCalls := (executeMode b bound mode).1
        events := [.spanOpen req.query_name, .spanClose req.query_name
          (statusOf (finalizeResult req.json_schema (executeMode b bound mode).2))] } := by
  simp only [managerCall, h]

/-- A manager call whose `model_key` is absent from the registry fails with
`UnknownModelError`, makes no backend attempt, and closes its span failed. -/
theorem managerCall_unresolved {registry : List (String × ModelEndpoint)}
    {b : Backend} {bound : Nat} {mode : Mode} {req : QueryRequest}
    (h : registry.lookup req.model_key = none) :
    managerCall registry b bound mode req =
      { result := .error .unknownModelError
        backendCalls := 0
        events := [.spanOpen req.query_name,
          .spanClose req.query_name .failed] } := by
  simp only [managerCall, resolve, h]

/-- A successful finalized result under a schema passed validation. -/
theorem finalizeResult_ok_validates {s : JsonSchema}
    {r : Except QueryError String} {t : String}
    (h : finalizeResult (some s) r = .ok t) : s.validate t = true := by
  cases r with
  | error e => simp [finalizeResult] at h
  | ok u =>
    simp only [finalizeResult] at h
    by_cases hv : s.validate u = true
    · rw [if_pos hv] at h
      cases h
      exact hv
    · rw [if_neg hv] at h
      cases h

/-- No key of the podcast catalog collides with an attribute defined on the
class. -/
theorem podcast_keys_not_attrs :
    ∀ a ∈ podcast_prompts.PROMPT_TEMPLATES.map Prod.fst,
      a ∉ promptClassAttrs := by decide

/-- No key of the monologue catalog collides with an attribute defined on the
class. -/
theorem monologue_keys_not_attrs :
    ∀ a ∈ monologue_prompts.PROMPT_TEMPLATES.map Prod.fst,
      a ∉ promptClassAttrs := by decide

/-- Attribute access outside the class attributes is decided by the
`PROMPT_TEMPLATES` lookup of `__getattr__`. -/
theorem pythonGetattr_not_attr {pts : List (String × String)}
    {cls name : String} (h : name ∉ promptClassAttrs) :
    pythonGetattr pts cls name =
      (match pts.lookup name with
        | some s => .ok (.str s)
        | none => .error (.attributeError
            ("\x27" ++ cls ++ "\x27 has no attribute \x27" ++ name ++ "\x27"))) := by
  simp only [pythonGetattr, if_neg h]

/-- An attribute access that produced a template string found it in
`PROMPT_TEMPLATES`. -/
theorem pythonGetattr_str_lookup {pts : List (String × String)}
    {cls name s : String} (h : pythonGetattr pts cls name = .ok (.str s)) :
    pts.lookup name = some s := by
  by_cases hm : name ∈ promptClassAttrs
  · simp [pythonGetattr, if_pos hm] at h
  · rw [pythonGetattr_not_attr hm] at h
    cases hl : pts.lookup name with
    | some u =>
      rw [hl] at h
      cases h
      rfl
    | none =>
      rw [hl] at h
      cases h

/-- `PodcastPrompts.get_template` in terms of the string dictionary. -/
theorem podcast_get_template_eq (name : String) :
    PodcastPrompts.get_template name =
      (match podcast_prompts.PROMPT_TEMPLATES.lookup name with
        | some s => .ok (jinja2Template s)
        | none => .error (.keyError name)) := by
  simp only [PodcastPrompts.get_template, podcast_prompts.TEMPLATES, lookup_map_value]
  cases podcast_prompts.PROMPT_TEMPLATES.lookup name <;> rfl

/-- `FinancialSummaryPrompts.get_template` in terms of the string
dictionary. -/
theorem monologue_get_template_eq (name : String) :
    FinancialSummaryPrompts.get_template name =
      (match monologue_prompts.PROMPT_TEMPLATES.lookup name with
        | some s => .ok (jinja2Template s)
        | none => .error (.keyError name)) := by
  simp only [FinancialSummaryPrompts.get_template, monologue_prompts.TEMPLATES,
    lookup_map_value]
  cases monologue_prompts.PROMPT_TEMPLATES.lookup name <;> rfl

/-- A name present in the podcast catalog is returned by attribute access. -/
theorem podcast_getattr_of_lookup {name s : String}
    (h : podcast_prompts.PROMPT_TEMPLATES.lookup name = some s) :
    PodcastPrompts.getattr name = .ok (.str s) := by
  have hnot : name ∉ promptClassAttrs :=
    podcast_keys_not_attrs name (lookup_some_mem_keys h)
  rw [PodcastPrompts.getattr, pythonGetattr_not_attr hnot, h]

/-- A name present in the monologue catalog is returned by attribute
access. -/
theorem monologue_getattr_of_lookup {name s : String}
    (h : monologue_prompts.PROMPT_TEMPLATES.lookup name = some s) :
    FinancialSummaryPrompts.getattr name = .ok (.str s) := by
  have hnot : name ∉ promptClassAttrs :=
    monologue_keys_not_attrs name (lookup_some_mem_keys h)
  rw [FinancialSummaryPrompts.getattr, pythonGetattr_not_attr hnot, h]

/-- Every lookup leaves the catalog state exactly as it found it. -/
theorem runLookups_id (cls : String) :
    ∀ (ops : List LookupOp) (st : CatalogState), runLookups cls st ops = st
  | [], _ => rfl
  | .attr _ :: ops, st => runLookups_id cls ops st
  | .templ _ :: ops, st => runLookups_id cls ops st

/-- C8: the template catalog is a read-only mapping: every name present in
the catalog is returned unchanged by both lookup paths, and any sequence of
lookups (attribute access and `get_template`, on either class) leaves the
dictionaries `PROMPT_TEMPLATES` and `TEMPLATES` exactly as loaded. -/
theorem C8_catalog_read_only : ∀ ops₁ ops₂ : List LookupOp,
    runLookups "PodcastPrompts" podcastCatalog ops₁ = podcastCatalog ∧
    runLookups "FinancialSummaryPrompts" monologueCatalog ops₂ = monologueCatalog ∧
    (∀ name s, podcast_prompts.PROMPT_TEMPLATES.lookup name = some s →
      PodcastPrompts.getattr name = .ok (.str s) ∧
      PodcastPrompts.get_template name = .ok (jinja2Template s)) ∧
    (∀ name s, monologue_prompts.PROMPT_TEMPLATES.lookup name = some s →
      FinancialSummaryPrompts.getattr name = .ok (.str s) ∧
      FinancialSummaryPrompts.get_template name = .ok (jinja2Template s)) := by
  intro ops₁ ops₂
  refine ⟨runLookups_id _ ops₁ _, runLookups_id _ ops₂ _, ?_, ?_⟩
  · intro name s h
    refine ⟨podcast_getattr_of_lookup h, ?_⟩
    rw [podcast_get_template_eq, h]
  · intro name s h
    refine ⟨monologue_getattr_of_lookup h, ?_⟩
    rw [monologue_get_template_eq, h]

/-- Witness for C8 at concrete inputs: a run of both lookup kinds leaves the
podcast catalog unchanged, and looking up a present name returns its
template. -/
theorem C8_catalog_read_only_witness :
    runLookups "PodcastPrompts" podcastCatalog
        [.attr "podcast_summary_prompt", .templ "nope"] = podcastCatalog ∧
    PodcastPrompts.getattr "podcast_summary_prompt" =
      .ok (.str podcast_prompts.PODCAST_SUMMARY_PROMPT_STR) ∧
    FinancialSummaryPrompts.get_template "monologue_summary_prompt" =
      .ok (jinja2Template monologue_prompts.MONOLOGUE_SUMMARY_PROMPT_STR) :=
  ⟨(C8_catalog_read_only [.attr "podcast_summary_prompt", .templ "nope"] []).1,
    ((C8_catalog_read_only [] []).2.2.1 "podcast_summary_prompt"
      podcast_prompts.PODCAST_SUMMARY_PROMPT_STR rfl).1,
    ((C8_catalog_read_only [] []).2.2.2 "monologue_summary_prompt"
      monologue_prompts.MONOLOGUE_SUMMARY_PROMPT_STR rfl).2⟩

/-- C9: in each prompt module the compiled dictionary `TEMPLATES` has the
same keys as `PROMPT_TEMPLATES`, each entry being the Jinja2 compilation of
the corresponding string, and `get_template` succeeds exactly for those names
for which attribute lookup yields a template string. -/
theorem C9_templates_compiled :
    (podcast_prompts.TEMPLATES.map Prod.fst =
      podcast_prompts.PROMPT_TEMPLATES.map Prod.fst) ∧
    (∀ name, podcast_prompts.TEMPLATES.lookup name =
      (podcast_prompts.PROMPT_TEMPLATES.lookup name).map jinja2Template) ∧
    (∀ name, (∃ t, PodcastPrompts.get_template name = .ok t) ↔
      (∃ s, PodcastPrompts.getattr name = .ok (.str s))) ∧
    (monologue_prompts.TEMPLATES.map Prod.fst =
      monologue_prompts.PROMPT_TEMPLATES.map Prod.fst) ∧
    (∀ name, monologue_prompts.TEMPLATES.lookup name =
      (monologue_prompts.PROMPT_TEMPLATES.lookup name).map jinja2Template) ∧
    (∀ name, (∃ t, FinancialSummaryPrompts.get_template name = .ok t) ↔
      (∃ s, FinancialSummaryPrompts.getattr name = .ok (.str s))) := by
  refine ⟨?_, ?_, ?_, ?_, ?_, ?_⟩
  · simp only [podcast_prompts.TEMPLATES, List.map_map]
    rfl
  · intro name
    exact lookup_map_value jinja2Template podcast_prompts.PROMPT_TEMPLATES name
  · intro name
    constructor
    · rintro ⟨t, ht⟩
      cases hl : podcast_prompts.PROMPT_TEMPLATES.lookup name with
      | some s => exact ⟨s, podcast_getattr_of_lookup hl⟩
      | none =>
        rw [podcast_get_template_eq, hl] at ht
        cases ht
    · rintro ⟨s, hs⟩
      have hl : podcast_prompts.PROMPT_TEMPLATES.lookup name = some s :=
        pythonGetattr_str_lookup hs
      refine ⟨jinja2Template s, ?_⟩
      rw [podcast_get_template_eq, hl]
  · simp only [monologue_prompts.TEMPLATES, List.map_map]
    rfl
  · intro name
    exact lookup_map_value jinja2Template monologue_prompts.PROMPT_TEMPLATES name
  · intro name
    constructor
    · rintro ⟨t, ht⟩
      cases hl : monologue_prompts.PROMPT_TEMPLATES.lookup name with
      | some s => exact ⟨s, monologue_getattr_of_lookup hl⟩
      | none =>
        rw [monologue_get_template_eq, hl] at ht
        cases ht
    · rintro ⟨s, hs⟩
      have hl : monologue_prompts.PROMPT_TEMPLATES.lookup name = some s :=
        pythonGetattr_str_lookup hs
      refine ⟨jinja2Template s, ?_⟩
      rw [monologue_get_template_eq, hl]

/-- Witness for C9 at a concrete absent name: the compiled-lookup equation
instantiated at "demo". -/
theorem C9_templates_compiled_witness :
    podcast_prompts.TEMPLATES.lookup "demo" =
      (podcast_prompts.PROMPT_TEMPLATES.lookup "demo").map jinja2Template ∧
    monologue_prompts.TEMPLATES.lookup "demo" =
      (monologue_prompts.PROMPT_TEMPLATES.lookup "demo").map jinja2Template :=
  ⟨C9_templates_compiled.2.1 "demo", C9_templates_compiled.2.2.2.2.1 "demo"⟩

/-- Counterexample to C10 as stated: "get_template" is a name absent from
both catalogs, yet attribute access of it does not raise `AttributeError` —
Python's normal attribute resolution finds the classmethod before
`__getattr__` is consulted — while `get_template("get_template")` does raise
`KeyError`. -/
theorem C10_counterexample :
    podcast_prompts.PROMPT_TEMPLATES.lookup "get_template" = none ∧
    PodcastPrompts.getattr "get_template" = .ok (.method "get_template") ∧
    PodcastPrompts.get_template "get_template" =
      .error (.keyError "get_template") ∧
    monologue_prompts.PROMPT_TEMPLATES.lookup "get_template" = none ∧
    FinancialSummaryPrompts.getattr "get_template" =
      .ok (.method "get_template") ∧
    FinancialSummaryPrompts.get_template "get_template" =
      .error (.keyError "get_template") := by
  refine ⟨by decide, by decide, ?_, by decide, by decide, ?_⟩
  · rw [podcast_get_template_eq]
    decide
  · rw [monologue_get_template_eq]
    decide

/-- C10 amended: for every name absent from the catalog that is not an
attribute defined on the class itself, the two lookup paths fail with
different exception types — `get_template` with `KeyError`, attribute access
with `AttributeError` — in both `PodcastPrompts` and
`FinancialSummaryPrompts`. -/
theorem C10_lookup_paths_differ : ∀ name : String,
    podcast_prompts.PROMPT_TEMPLATES.lookup name = none →
    monologue_prompts.PROMPT_TEMPLATES.lookup name = none →
    name ∉ promptClassAttrs →
    PodcastPrompts.get_template name = .error (.keyError name) ∧
    PodcastPrompts.getattr name = .error (.attributeError
      ("\x27PodcastPrompts\x27 has no attribute \x27" ++ name ++ "\x27")) ∧
    FinancialSummaryPrompts.get_template name = .error (.keyError name) ∧
    FinancialSummaryPrompts.getattr name = .error (.attributeError
      ("\x27FinancialSummaryPrompts\x27 has no attribute \x27" ++ name ++ "\x27")) ∧
    PyExc.keyError name ≠ PyExc.attributeError
      ("\x27PodcastPrompts\x27 has no attribute \x27" ++ name ++ "\x27") := by
  intro name hpod hmono hattr
  refine ⟨?_, ?_, ?_, ?_, by simp⟩
  · rw [podcast_get_template_eq, hpod]
  · rw [PodcastPrompts.getattr, pythonGetattr_not_attr hattr, hpod]
    rfl
  · rw [monologue_get_template_eq, hmono]
  · rw [FinancialSummaryPrompts.getattr, pythonGetattr_not_attr hattr, hmono]
    rfl

/-- Witness for the amended C10 at the concrete absent name
"nonexistent". -/
theorem C10_lookup_paths_differ_witness :
    PodcastPrompts.get_template "nonexistent" =
      .error (.keyError "nonexistent") ∧
    PodcastPrompts.getattr "nonexistent" = .error (.attributeError
      "\x27PodcastPrompts\x27 has no attribute \x27nonexistent\x27") ∧
    FinancialSummaryPrompts.get_template "nonexistent" =
      .error (.keyError "nonexistent") ∧
    FinancialSummaryPrompts.getattr "nonexistent" = .error (.attributeError
      "\x27FinancialSummaryPrompts\x27 has no attribute \x27nonexistent\x27") :=
  by
  have h := C10_lookup_paths_differ "nonexistent" (by decide) (by decide) (by decide)
  exact ⟨h.1, h.2.1, h.2.2.1, h.2.2.2.1⟩

/-- Counterexample to C4 as stated: looking up the absent identifier
"missing" fails not with a typed unknown-template error but with the generic
`KeyError` (from `get_template`) and, through dynamic `__getattr__`
resolution, the generic `AttributeError` (from attribute access). -/
theorem C4_counterexample :
    PodcastPrompts.get_template "missing" = .error (.keyError "missing") ∧
    PyExc.keyError "missing" ≠ PyExc.unknownTemplateError "missing" ∧
    PodcastPrompts.getattr "missing" = .error (.attributeError
      "\x27PodcastPrompts\x27 has no attribute \x27missing\x27") ∧
    FinancialSummaryPrompts.get_template "missing" =
      .error (.keyError "missing") ∧
    FinancialSummaryPrompts.getattr "missing" = .error (.attributeError
      "\x27FinancialSummaryPrompts\x27 has no attribute \x27missing\x27") := by
  refine ⟨?_, by simp, by decide, ?_, by decide⟩
  · rw [podcast_get_template_eq]
    decide
  · rw [monologue_get_template_eq]
    decide

/-- C4 amended: the catalog is a fixed mapping from a closed set of string
constants to compiled template objects, but lookup of an identifier outside
it fails with the generic `KeyError` (`get_template`) or, via dynamic
`__getattr__` attribute resolution, `AttributeError` (attribute access of
names not defined on the class) — never with a typed unknown-template
error. -/
theorem C4_template_lookup_failure :
    (podcast_prompts.TEMPLATES.map Prod.fst =
      ["podcast_summary_prompt", "podcast_multi_pdf_outline_prompt",
        "podcast_multi_pdf_structured_outline_prompt",
        "podcast_prompt_with_references", "podcast_prompt_no_references",
        "podcast_transcript_to_dialogue_prompt",
        "podcast_combine_dialogues_prompt", "podcast_dialogue_prompt"]) ∧
    (monologue_prompts.TEMPLATES.map Prod.fst =
      ["monologue_summary_prompt", "monologue_multi_doc_synthesis_prompt",
        "monologue_transcript_prompt", "monologue_dialogue_prompt"]) ∧
    (∀ name, podcast_prompts.PROMPT_TEMPLATES.lookup name = none →
      PodcastPrompts.get_template name = .error (.keyError name) ∧
      (∀ tn, PodcastPrompts.get_template name ≠
        .error (.unknownTemplateError tn)) ∧
      (name ∉ promptClassAttrs →
        PodcastPrompts.getattr name = .error (.attributeError
          ("\x27PodcastPrompts\x27 has no attribute \x27" ++ name ++ "\x27")) ∧
        ∀ tn, PodcastPrompts.getattr name ≠
          .error (.unknownTemplateError tn))) ∧
    (∀ name, monologue_prompts.PROMPT_TEMPLATES.lookup name = none →
      FinancialSummaryPrompts.get_template name = .error (.keyError name) ∧
      (∀ tn, FinancialSummaryPrompts.get_template name ≠
        .error (.unknownTemplateError tn)) ∧
      (name ∉ promptClassAttrs →
        FinancialSummaryPrompts.getattr name = .error (.attributeError
          ("\x27FinancialSummaryPrompts\x27 has no attribute \x27" ++ name ++ "\x27")) ∧
        ∀ tn, FinancialSummaryPrompts.getattr name ≠
          .error (.unknownTemplateError tn))) := by
  refine ⟨by decide, by decide, ?_, ?_⟩
  · intro name hl
    have hget : PodcastPrompts.get_template name = .error (.keyError name) := by
      rw [podcast_get_template_eq, hl]
    refine ⟨hget, ?_, ?_⟩
    · intro tn hcontra
      rw [hget] at hcontra
      simp at hcontra
    · intro hattr
      have hga : PodcastPrompts.getattr name = .error (.attributeError
          ("\x27PodcastPrompts\x27 has no attribute \x27" ++ name ++ "\x27")) := by
        rw [PodcastPrompts.getattr, pythonGetattr_not_attr hattr, hl]
        rfl
      refine ⟨hga, ?_⟩
      intro tn hcontra
      rw [hga] at hcontra
      simp at hcontra
  · intro name hl
    have hget : FinancialSummaryPrompts.get_template name =
        .error (.keyError name) := by
      rw [monologue_get_template_eq, hl]
    refine ⟨hget, ?_, ?_⟩
    · intro tn hcontra
      rw [hget] at hcontra
      simp at hcontra
    · intro hattr
      have hga : FinancialSummaryPrompts.getattr name = .error (.attributeError
          ("\x27FinancialSummaryPrompts\x27 has no attribute \x27" ++ name ++ "\x27")) := by
        rw [FinancialSummaryPrompts.getattr, pythonGetattr_not_attr hattr, hl]
        rfl
      refine ⟨hga, ?_⟩
      intro tn hcontra
      rw [hga] at hcontra
      simp at hcontra

/-- Witness for the amended C4 at the concrete absent name "unknown". -/
theorem C4_template_lookup_failure_witness :
    PodcastPrompts.get_template "unknown" = .error (.keyError "unknown") ∧
    PodcastPrompts.getattr "unknown" = .error (.attributeError
      "\x27PodcastPrompts\x27 has no attribute \x27unknown\x27") ∧
    FinancialSummaryPrompts.get_template "unknown" =
      .error (.keyError "unknown") := by
  have h := C4_template_lookup_failure.2.2.1 "unknown" (by decide)
  have h' := C4_template_lookup_failure.2.2.2 "unknown" (by decide)
  exact ⟨h.1, (h.2.2 (by decide)).1, h'.1⟩

/-- A manager call that returned a value did so through the
schema-enforcement step applied to the executor's result. -/
theorem managerCall_ok_result {registry : List (String × ModelEndpoint)}
    {b : Backend} {bound : Nat} {mode : Mode} {req : QueryRequest} {t : String}
    (h : (managerCall registry b bound mode req).result = .ok t) :
    finalizeResult req.json_schema (executeMode b bound mode).2 = .ok t := by
  cases hr : resolve registry req.model_key with
  | error e =>
    simp only [managerCall, hr] at h
    cases h
  | ok ep =>
    rw [managerCall_resolved hr] at h
    exact h

/-- In the non-streaming modes the executor surfaces the retry loop's result
unchanged; in the streaming modes it aggregates the chunked payload. -/
theorem executeMode_result (b : Backend) (bound : Nat)
    (hj : ∀ t, String.join (b.chunksOf t) = t) (mode : Mode) :
    (executeMode b bound mode).2 = (runAttempts b bound 0).2 := by
  rcases hra : runAttempts b bound 0 with ⟨c, r⟩
  cases r with
  | error e => simp only [executeMode, hra]
  | ok t =>
    cases mode with
    | sync => simp only [executeMode, hra]
    | async => simp only [executeMode, hra]
    | streamSync =>
      simp only [executeMode, hra, aggregate_mkStreamChunks, hj]
    | streamAsync =>
      simp only [executeMode, hra, aggregate_mkStreamChunks, hj]

/-- The executor's attempt count is the retry loop's attempt count. -/
theorem executeMode_count (b : Backend) (bound : Nat) (mode : Mode) :
    (executeMode b bound mode).1 = (runAttempts b bound 0).1 := by
  rcases hra : runAttempts b bound 0 with ⟨c, r⟩
  cases r with
  | error e => simp only [executeMode, hra]
  | ok t => cases mode <;> simp only [executeMode, hra]

/-- Registry fixture: the logical model keys of the test module, mapped to
the NVIDIA endpoint of the repository. -/
def wEndpoint : ModelEndpoint :=
  ⟨"https://integrate.api.nvidia.com/v1", "meta/llama-3.1-8b-instruct"⟩

/-- Registry fixture with the two model keys the tests use. -/
def wRegistry : List (String × ModelEndpoint) :=
  [("reasoning", wEndpoint), ("json", wEndpoint)]

/-- Stub backend that answers "result" on the first attempt and streams the
payload whole. -/
def wBackendOk : Backend := ⟨fun _ => .ok "result", fun t => [t]⟩

/-- Stub backend that fails transiently twice and then answers "done". -/
def wBackendFlaky : Backend :=
  ⟨fun i => if i < 2 then .transient else .ok "done", fun t => [t]⟩

/-- Stub backend that always fails transiently. -/
def wBackendDown : Backend := ⟨fun _ => .transient, fun t => [t]⟩

/-- Stub backend that fails with a 4xx-equivalent client error at once. -/
def wBackendClient : Backend := ⟨fun _ => .clientError, fun t => [t]⟩

/-- Schema fixture accepting exactly the stub backend's answer. -/
def wSchemaAccept : JsonSchema := ⟨fun t => t == "result"⟩

/-- Schema fixture rejecting every text. -/
def wSchemaReject : JsonSchema := ⟨fun _ => false⟩

/-- Message fixture. -/
def wMessages : List Message :=
  [⟨"user", "Generate details for a fictional character."⟩]

/-- Request fixture: a schema-constrained call on the "json" model key. -/
def wReqJson : QueryRequest := ⟨"json", wMessages, "test_json", some wSchemaAccept⟩

/-- Request fixture: a schema-constrained call whose schema rejects. -/
def wReqReject : QueryRequest :=
  ⟨"json", wMessages, "test_json", some wSchemaReject⟩

/-- Request fixture: a plain call on the "reasoning" model key. -/
def wReqPlain : QueryRequest := ⟨"reasoning", wMessages, "test_stream_sync", none⟩

/-- Request fixture: a call on a model key absent from the registry. -/
def wReqUnknown : QueryRequest := ⟨"nonexistent", wMessages, "test_unknown", none⟩

/-- C1: whenever `json_schema` is provided, every value returned by any of
`query_sync`, `query_async`, `stream_sync`, `stream_async` validates against
the schema, and a non-conforming backend text makes the call fail with
`SchemaViolationError` — the manager never returns a non-conforming value. -/
theorem C1_schema_enforced : ∀ (registry : List (String × ModelEndpoint))
    (b : Backend) (bound : Nat) (req : QueryRequest) (s : JsonSchema),
    req.json_schema = some s →
    (∀ t, (query_sync registry b bound req).result = .ok t →
      s.validate t = true) ∧
    (∀ t, (query_async registry b bound req).result = .ok t →
      s.validate t = true) ∧
    (∀ t, (stream_sync registry b bound req).result = .ok t →
      s.validate t = true) ∧
    (∀ t, (stream_async registry b bound req).result = .ok t →
      s.validate t = true) ∧
    (∀ mode t ep, resolve registry req.model_key = .ok ep →
      (executeMode b bound mode).2 = .ok t → s.validate t = false →
      (managerCall registry b bound mode req).result =
        .error .schemaViolationError) := by
  intro registry b bound req s hs
  have hmode : ∀ mode t,
      (managerCall registry b bound mode req).result = .ok t →
      s.validate t = true := by
    intro mode t h
    have hfin := managerCall_ok_result h
    rw [hs] at hfin
    exact finalizeResult_ok_validates hfin
  refine ⟨hmode .sync, hmode .async, hmode .streamSync, hmode .streamAsync, ?_⟩
  intro mode t ep hres hexec hval
  rw [managerCall_resolved hres, hs, hexec]
  simp only [finalizeResult, hval]
  rw [if_neg]
  simp

/-- Witness for C1: the accepting schema validates the value actually
returned, and the rejecting schema makes the same call fail with
`SchemaViolationError`. -/
theorem C1_schema_enforced_witness :
    ((query_sync wRegistry wBackendOk 3 wReqJson).result = .ok "result" ∧
      wSchemaAccept.validate "result" = true) ∧
    (managerCall wRegistry wBackendOk 3 .sync wReqReject).result =
      .error .schemaViolationError :=
  ⟨⟨by decide,
    (C1_schema_enforced wRegistry wBackendOk 3 wReqJson wSchemaAccept rfl).1
      "result" (by decide)⟩,
    (C1_schema_enforced wRegistry wBackendOk 3 wReqReject wSchemaReject
      rfl).2.2.2.2 .sync "result" wEndpoint (by decide) (by decide) rfl⟩

/-- C3: with retry bound `N`, a backend failing transiently exactly `N-1`
times then answering yields success after `N` attempts; failing transiently
`N` times yields `TransientBackendError`; a 4xx-equivalent client error is
surfaced after exactly one attempt; and a schema violation is surfaced
(never retried) after the single attempt that produced the text. -/
theorem C3_retry_policy : ∀ (b : Backend) (N : Nat) (t : String)
    (registry : List (String × ModelEndpoint)) (req : QueryRequest)
    (s : JsonSchema),
    (1 ≤ N → (∀ i, i < N - 1 → b.outcome i = .transient) →
      b.outcome (N - 1) = .ok t →
      runAttempts b N 0 = (N, .ok t)) ∧
    ((∀ i, i < N → b.outcome i = .transient) →
      runAttempts b N 0 = (N, .error .transientBackendError)) ∧
    (1 ≤ N → b.outcome 0 = .clientError →
      runAttempts b N 0 = (1, .error .clientError)) ∧
    (1 ≤ N → b.outcome 0 = .ok t → req.json_schema = some s →
      s.validate t = false →
      ∀ ep, resolve registry req.model_key = .ok ep →
      (managerCall registry b N .sync req).result =
          .error .schemaViolationError ∧
        (managerCall registry b N .sync req).backendCalls = 1) := by
  intro b N t registry req s
  refine ⟨?_, ?_, ?_, ?_⟩
  · intro hN htr hok
    exact runAttempts_succeeds b N 0 t hN
      (fun j hj => by simpa using htr j hj) (by simpa using hok)
  · intro htr
    exact runAttempts_all_transient b N 0 (fun j hj => by simpa using htr j hj)
  · intro hN hc
    exact runAttempts_client b N 0 hN hc
  · intro hN hok hschema hval ep hres
    have hrun : runAttempts b N 0 = (1, .ok t) :=
      runAttempts_first_ok b N 0 t hN hok
    have hexec : executeMode b N .sync = (1, .ok t) := by
      simp only [executeMode, hrun]
    rw [managerCall_resolved hres]
    refine ⟨?_, ?_⟩
    · show finalizeResult req.json_schema (executeMode b N .sync).2 =
        .error .schemaViolationError
      rw [hexec, hschema]
      simp only [finalizeResult, hval]
      rw [if_neg]
      simp
    · show (executeMode b N .sync).1 = 1
      rw [hexec]

/-- Witness for C3 at bound 3: two transient failures then success succeeds
with three attempts; three transient failures surface
`TransientBackendError`; a client error is surfaced after one attempt; and
the rejecting schema surfaces `SchemaViolationError` after one attempt. -/
theorem C3_retry_policy_witness :
    runAttempts wBackendFlaky 3 0 = (3, .ok "done") ∧
    runAttempts wBackendDown 3 0 = (3, .error .transientBackendError) ∧
    runAttempts wBackendClient 3 0 = (1, .error .clientError) ∧
    (managerCall wRegistry wBackendOk 3 .sync wReqReject).result =
      .error .schemaViolationError ∧
    (managerCall wRegistry wBackendOk 3 .sync wReqReject).backendCalls = 1 := by
  have h1 := (C3_retry_policy wBackendFlaky 3 "done" wRegistry wReqReject
    wSchemaReject).1 (by omega)
    (fun i hi => by
      show (if i < 2 then BackendOutcome.transient else .ok "done") = .transient
      rw [if_pos hi])
    (by decide)
  have h2 := (C3_retry_policy wBackendDown 3 "done" wRegistry wReqReject
    wSchemaReject).2.1 (fun i _ => rfl)
  have h3 := (C3_retry_policy wBackendClient 3 "done" wRegistry wReqReject
    wSchemaReject).2.2.1 (by omega) rfl
  have h4 := (C3_retry_policy wBackendOk 3 "result" wRegistry wReqReject
    wSchemaReject).2.2.2 (by omega) rfl rfl rfl wEndpoint (by decide)
  exact ⟨h1, h2, h3, h4.1, h4.2⟩

/-- C5: with a deterministic backend — one whose streamed partial payloads
rejoin to the single-response payload — the four execution modes
`query_sync`, `query_async`, `stream_sync`, `stream_async` return equal
results for identical inputs. -/
theorem C5_mode_equivalence : ∀ (registry : List (String × ModelEndpoint))
    (b : Backend) (bound : Nat) (req : QueryRequest),
    (∀ t, String.join (b.chunksOf t) = t) →
    (query_sync registry b bound req).result =
        (query_async registry b bound req).result ∧
    (query_async registry b bound req).result =
        (stream_sync registry b bound req).result ∧
    (stream_sync registry b bound req).result =
        (stream_async registry b bound req).result := by
  intro registry b bound req hj
  cases hr : resolve registry req.model_key with
  | error e =>
    simp only [query_sync, query_async, stream_sync, stream_async,
      managerCall, hr]
    exact ⟨trivial, trivial, trivial⟩
  | ok ep =>
    have hres : ∀ mode, (managerCall registry b bound mode req).result =
        finalizeResult req.json_schema (executeMode b bound mode).2 := by
      intro mode
      rw [managerCall_resolved hr]
    have hmode : ∀ m₁ m₂ : Mode,
        (managerCall registry b bound m₁ req).result =
          (managerCall registry b bound m₂ req).result := by
      intro m₁ m₂
      rw [hres m₁, hres m₂, executeMode_result b bound hj m₁,
        executeMode_result b bound hj m₂]
    exact ⟨hmode .sync .async, hmode .async .streamSync,
      hmode .streamSync .streamAsync⟩

/-- Witness for C5: on the deterministic stub backend all four modes return
`ok "result"`. -/
theorem C5_mode_equivalence_witness :
    (query_sync wRegistry wBackendOk 3 wReqPlain).result = .ok "result" ∧
    (query_sync wRegistry wBackendOk 3 wReqPlain).result =
      (query_async wRegistry wBackendOk 3 wReqPlain).result ∧
    (query_async wRegistry wBackendOk 3 wReqPlain).result =
      (stream_sync wRegistry wBackendOk 3 wReqPlain).result ∧
    (stream_sync wRegistry wBackendOk 3 wReqPlain).result =
      (stream_async wRegistry wBackendOk 3 wReqPlain).result := by
  have h := C5_mode_equivalence wRegistry wBackendOk 3 wReqPlain
    (fun t => by simp [wBackendOk, String.join])
  exact ⟨by decide, h.1, h.2.1, h.2.2⟩

/-- C6: every manager call emits exactly one span, opened at call start and
closed exactly once with a terminal status — `succeeded` exactly when the
call returns a value, `failed` on every error path. -/
theorem C6_span_discipline : ∀ (registry : List (String × ModelEndpoint))
    (b : Backend) (bound : Nat) (mode : Mode) (req : QueryRequest),
    ∃ st : SpanStatus,
      (managerCall registry b bound mode req).events =
        [.spanOpen req.query_name, .spanClose req.query_name st] ∧
      (st = .succeeded ∨ st = .failed) ∧
      (st = .succeeded ↔
        ∃ t, (managerCall registry b bound mode req).result = .ok t) := by
  intro registry b bound mode req
  cases hr : resolve registry req.model_key with
  | error e =>
    refine ⟨.failed, ?_, Or.inr rfl, ?_⟩
    · simp only [managerCall, hr]
    · constructor
      · intro h
        cases h
      · rintro ⟨t, ht⟩
        simp only [managerCall, hr] at ht
        cases ht
  | ok ep =>
    rw [managerCall_resolved hr]
    cases hfin : finalizeResult req.json_schema (executeMode b bound mode).2 with
    | ok t =>
      refine ⟨.succeeded, ?_, Or.inl rfl, ?_⟩
      · simp only [hfin, statusOf]
      · simp only [hfin, statusOf]
        exact ⟨fun _ => ⟨t, rfl⟩, fun _ => trivial⟩
    | error e =>
      refine ⟨.failed, ?_, Or.inr rfl, ?_⟩
      · simp only [hfin, statusOf]
      · simp only [hfin, statusOf]
        constructor
        · intro h
          cases h
        · rintro ⟨t, ht⟩
          cases ht

/-- Witness for C6: the span sequence of a concrete successful call and of a
concrete failed call, both exactly one open and one close. -/
theorem C6_span_discipline_witness :
    (managerCall wRegistry wBackendOk 3 .sync wReqPlain).events =
      [.spanOpen "test_stream_sync", .spanClose "test_stream_sync" .succeeded] ∧
    (managerCall wRegistry wBackendDown 3 .sync wReqPlain).events =
      [.spanOpen "test_stream_sync", .spanClose "test_stream_sync" .failed] := by
  obtain ⟨st₁, he₁, _, hi₁⟩ :=
    C6_span_discipline wRegistry wBackendOk 3 .sync wReqPlain
  obtain ⟨st₂, he₂, ho₂, hi₂⟩ :=
    C6_span_discipline wRegistry wBackendDown 3 .sync wReqPlain
  have h₁ : st₁ = .succeeded := hi₁.mpr ⟨"result", by decide⟩
  have h₂ : st₂ = .failed := by
    cases ho₂ with
    | inl h =>
      exfalso
      obtain ⟨t, ht⟩ := hi₂.mp h
      rw [show (managerCall wRegistry wBackendDown 3 .sync wReqPlain).result =
        .error .transientBackendError by decide] at ht
      cases ht
    | inr h => exact h
  rw [h₁] at he₁
  rw [h₂] at he₂
  exact ⟨he₁, he₂⟩

/-- C7: a call whose `model_key` is absent from the registry raises
`UnknownModelError` with zero backend attempts — no network call is ever
made and the error is not retried. -/
theorem C7_unknown_model : ∀ (registry : List (String × ModelEndpoint))
    (b : Backend) (bound : Nat) (mode : Mode) (req : QueryRequest),
    registry.lookup req.model_key = none →
    (managerCall registry b bound mode req).result =
        .error .unknownModelError ∧
    (managerCall registry b bound mode req).backendCalls = 0 := by
  intro registry b bound mode req h
  rw [managerCall_unresolved h]
  exact ⟨rfl, rfl⟩

/-- Witness for C7: the "nonexistent" model key fails with
`UnknownModelError` and the stub backend's call counter stays zero. -/
theorem C7_unknown_model_witness :
    (managerCall wRegistry wBackendOk 3 .sync wReqUnknown).result =
      .error .unknownModelError ∧
    (managerCall wRegistry wBackendOk 3 .sync wReqUnknown).backendCalls = 0 :=
  C7_unknown_model wRegistry wBackendOk 3 .sync wReqUnknown (by decide)

/-- C2: aggregation is invariant under permutation of arrival order; when the
`sequence_index` values form a contiguous duplicate-free range it returns the
deltas concatenated in index order (the unique strictly index-increasing
arrangement); and on any input with a gap or duplicate — i.e. whose index
multiset is no contiguous range — it fails with `StreamOrderingError`. -/
theorem C2_aggregate_reordering : ∀ l : List StreamChunk,
    (∀ l', l.Perm l' → aggregate l = aggregate l') ∧
    (∀ m, (l.map StreamChunk.sequence_index).Perm (List.range' m l.length) →
      ∃ l', l.Perm l' ∧ l'.Pairwise chunkLT ∧
        aggregate l = .ok (String.join (l'.map StreamChunk.delta)) ∧
        (∀ l'', l.Perm l'' → l''.Pairwise chunkLT → l'' = l')) ∧
    ((∀ m, ¬ (l.map StreamChunk.sequence_index).Perm (List.range' m l.length)) →
      aggregate l = .error .streamOrderingError) := by
  intro l
  refine ⟨fun l' h => aggregate_perm h, ?_, ?_⟩
  · intro m h
    obtain ⟨hagg, hlt⟩ := aggregate_ok_of_contiguous h
    refine ⟨List.insertionSort chunkLE l,
      (List.perm_insertionSort chunkLE l).symm, hlt, hagg, ?_⟩
    intro l'' h'' hlt''
    exact sorted_chunkLT_unique
      (h''.symm.trans (List.perm_insertionSort chunkLE l).symm) hlt'' hlt
  · exact aggregate_error_of_not_contiguous

/-- Witness for C2: a shuffled arrival order reconstructs the same text as
the sorted order, and a duplicated index fails with `StreamOrderingError`. -/
theorem C2_aggregate_reordering_witness :
    aggregate [⟨2, "c", true⟩, ⟨0, "a", false⟩, ⟨1, "b", false⟩] =
      aggregate [⟨0, "a", false⟩, ⟨1, "b", false⟩, ⟨2, "c", true⟩] ∧
    aggregate [⟨2, "c", true⟩, ⟨0, "a", false⟩, ⟨1, "b", false⟩] = .ok "abc" ∧
    aggregate [⟨0, "a", false⟩, ⟨0, "b", true⟩] =
      .error .streamOrderingError := by
  refine ⟨(C2_aggregate_reordering
      [⟨2, "c", true⟩, ⟨0, "a", false⟩, ⟨1, "b", false⟩]).1
      [⟨0, "a", false⟩, ⟨1, "b", false⟩, ⟨2, "c", true⟩] (by decide),
    by decide,
    (C2_aggregate_reordering [⟨0, "a", false⟩, ⟨0, "b", true⟩]).2.2 ?_⟩
  intro m h
  exact absurd (h.nodup_iff.mpr (List.nodup_range' m 2)) (by decide)
